import Mathlib

/-!
# Item service (`src/index.js`): request handlers and startup bootstrap

A shallow embedding of the Express application in `src/index.js`:

* the three route handlers `app.get('/')`, `app.get('/items')` and
  `app.post('/items')`, as functions of the connection pool's `query`
  (an arbitrary state-passing function, so every database behaviour is covered),
  the request and the database state;
* the startup promise chain on `pool.connect()`;
* PostgreSQL's behaviour on the statements the file issues against the table
  `test_items` declared at lines 22-26 (`pgQuery`), used where a property
  speaks of the stored rows.

The embedding covers the statements of lines 1-76 of the file. Lines 77-78 are two
trailing lines that start with `#`; they are not statements of the program and have no part
in the embedding.
-/

namespace ItemService

/-! ## JavaScript values -/

/-- A JavaScript string: its sequence of UTF-16 code units, each below 65536. A surrogate
code unit may stand alone, as in the JSON text `"a\ud800b"`. -/
abbrev JSString := List Nat

/-- The code units 0xD800-0xDBFF. -/
def isHighSurrogate (u : Nat) : Bool := decide (0xD800 ≤ u ∧ u ≤ 0xDBFF)

/-- The code units 0xDC00-0xDFFF. -/
def isLowSurrogate (u : Nat) : Bool := decide (0xDC00 ≤ u ∧ u ≤ 0xDFFF)

/-- The code units of one character: itself below 0x10000, a surrogate pair above. -/
def utf16Char (c : Char) : JSString :=
  if c.toNat < 0x10000 then [c.toNat]
  else [0xD800 + (c.toNat - 0x10000) / 0x400, 0xDC00 + (c.toNat - 0x10000) % 0x400]

/-- The JavaScript string of a text: the value of a string literal of the program, and of a
text column read from the database. -/
def utf16 (s : String) : JSString := s.data.flatMap utf16Char

/-- The character U+FFFD. -/
def replacementChar : Char := Char.ofNat 0xFFFD

/-- The characters of a JavaScript string as its UTF-8 encoding keeps them, read left to
right with a possibly pending high surrogate: a surrogate pair is one character, every
surrogate that stands alone becomes U+FFFD. -/
def decodeFrom : Option Nat → JSString → List Char
  | none, [] => []
  | some _, [] => [replacementChar]
  | none, u :: rest =>
      if isHighSurrogate u then decodeFrom (some u) rest
      else if isLowSurrogate u then replacementChar :: decodeFrom none rest
      else Char.ofNat u :: decodeFrom none rest
  | some h, u :: rest =>
      if isLowSurrogate u then
        Char.ofNat (0x10000 + (h - 0xD800) * 0x400 + (u - 0xDC00)) :: decodeFrom none rest
      else if isHighSurrogate u then replacementChar :: decodeFrom (some u) rest
      else replacementChar :: Char.ofNat u :: decodeFrom none rest

/-- The text a JavaScript string is sent as when it is written to the wire in UTF-8. -/
def decodeUtf16 (s : JSString) : String := String.mk (decodeFrom none s)

/-- A JavaScript number: `NaN`, an infinity, or a finite value (both zeros are `finite 0`). -/
inductive JSNum where
  | nan
  | infinity (negative : Bool)
  | finite (q : ℚ)

/-- The JavaScript values a parsed JSON body or a result row can hold; a `Date` holds whole
milliseconds. -/
inductive JSVal where
  | undefined
  | null
  | bool (b : Bool)
  | num (n : JSNum)
  | str (s : JSString)
  | date (millis : Nat)
  | arr (items : List JSVal)
  | obj (fields : List (String × JSVal))

/-- An exception value: `err.message` is all the program reads of it. -/
structure JSError where
  message : String

/-- JavaScript `ToBoolean` on a number: `0`, `-0` and `NaN` are falsy. -/
def JSNum.truthy : JSNum → Bool
  | .nan => false
  | .infinity _ => true
  | .finite q => decide (q ≠ 0)

/-- JavaScript `ToBoolean`, as used by `!name`. -/
def JSVal.truthy : JSVal → Bool
  | .undefined => false
  | .null => false
  | .bool b => b
  | .num n => n.truthy
  | .str s => decide (s ≠ [])
  | .date _ => true
  | .arr _ => true
  | .obj _ => true

/-- Property read `v.key` (also the destructuring `const { key } = v`): a `TypeError` on
`undefined` and `null`, the own property of an object, `undefined` when there is none.
Only the keys `name` and `current_time` are read, which no built-in prototype defines. -/
def JSVal.getProp (v : JSVal) (key : String) : Except JSError JSVal :=
  match v with
  | .undefined =>
      .error ⟨"Cannot read properties of undefined (reading \x27" ++ key ++ "\x27)"⟩
  | .null => .error ⟨"Cannot read properties of null (reading \x27" ++ key ++ "\x27)"⟩
  | .obj fields => .ok ((fields.lookup key).getD .undefined)
  | _ => .ok .undefined

/-! ## The pool, requests and responses -/

/-- A call `pool.query(text, params)`; a call without values has `params = []`. -/
structure Query where
  text : String
  params : List JSVal

/-- The `result` a query promise resolves with; only `result.rows` is read. -/
structure QueryResult where
  rows : List JSVal

/-- The method `pool.query` over a database state `σ`: the promise rejects (`error`) or
resolves (`ok`), and the database moves to a new state. -/
abbrev Pool (σ : Type) := Query → σ → Except JSError QueryResult × σ

/-- The part of `req` the handlers read. -/
structure Request where
  body : JSVal

/-- A response body: a string given to `res.send`, or a value given to `res.json`. -/
inductive Body where
  | text (s : String)
  | json (v : JSVal)

/-- The response written to `res`. -/
structure Response where
  status : Nat
  body : Body

/-- How a handler invocation ends: it wrote a response, or its promise rejected with an
exception thrown outside every `try` block. -/
inductive Outcome where
  | responded (r : Response)
  | rejected (err : JSError)

/-- Everything observable of one handler invocation. -/
structure Run (σ : Type) where
  outcome : Outcome
  queries : List Query
  stderr : List String
  db : σ

/-- The element `rows[0]`: `undefined` on an empty array. -/
def firstRow (rows : List JSVal) : JSVal :=
  rows.head?.getD .undefined

/-- The statement text of line 42. -/
def selectNowSql : String := "SELECT NOW() as current_time"

/-- The statement text of line 52. -/
def selectItemsSql : String := "SELECT * FROM test_items ORDER BY created_at DESC"

/-- The statement text of line 66. -/
def insertItemSql : String := "INSERT INTO test_items (name) VALUES ($1) RETURNING *"

/-- The statement text of lines 21-27. -/
def createTableSql : String :=
  "\n      CREATE TABLE IF NOT EXISTS test_items (\n        id SERIAL PRIMARY KEY,\n        name VARCHAR(255) NOT NULL,\n        created_at TIMESTAMP DEFAULT CURRENT_TIMESTAMP\n      );\n    "

/-! ## Route handlers -/

/-- The handler of `app.get('/')`, lines 40-48. `toStr` is the string conversion of the
template literal. An exception of `result.rows[0].current_time` is thrown inside the `try`
block and takes the `catch` branch like a rejected query. -/
def getRoot {σ : Type} (toStr : JSVal → String) (pool : Pool σ) (s : σ) : Run σ :=
  let q : Query := ⟨selectNowSql, []⟩
  match pool q s with
  | (.ok result, s1) =>
      match (firstRow result.rows).getProp "current_time" with
      | .ok t =>
          { outcome := .responded
              ⟨200, .text ("Hello from the Node.js app! Current DB time: " ++ toStr t)⟩,
            queries := [q], stderr := [], db := s1 }
      | .error err =>
          { outcome := .responded ⟨500, .text "Error connecting to database"⟩,
            queries := [q], stderr := ["Error fetching time: " ++ err.message], db := s1 }
  | (.error err, s1) =>
      { outcome := .responded ⟨500, .text "Error connecting to database"⟩,
        queries := [q], stderr := ["Error fetching time: " ++ err.message], db := s1 }

/-- The handler of `app.get('/items')`, lines 50-58. -/
def getItems {σ : Type} (pool : Pool σ) (s : σ) : Run σ :=
  let q : Query := ⟨selectItemsSql, []⟩
  match pool q s with
  | (.ok result, s1) =>
      { outcome := .responded ⟨200, .json (.arr result.rows)⟩,
        queries := [q], stderr := [], db := s1 }
  | (.error err, s1) =>
      { outcome := .responded ⟨500, .text "Error fetching items from database"⟩,
        queries := [q], stderr := ["Error fetching items: " ++ err.message], db := s1 }

/-- The handler of `app.post('/items')`, lines 60-72. The destructuring of line 61 stands
before the `try` block. -/
def postItems {σ : Type} (pool : Pool σ) (req : Request) (s : σ) : Run σ :=
  match req.body.getProp "name" with
  | .error err => { outcome := .rejected err, queries := [], stderr := [], db := s }
  | .ok name =>
      if !name.truthy then
        { outcome := .responded ⟨400, .text "Item name is required in the request body."⟩,
          queries := [], stderr := [], db := s }
      else
        let q : Query := ⟨insertItemSql, [name]⟩
        match pool q s with
        | (.ok result, s1) =>
            { outcome := .responded ⟨201, .json (firstRow result.rows)⟩,
              queries := [q], stderr := [], db := s1 }
        | (.error err, s1) =>
            { outcome := .responded ⟨500, .text "Error adding item to database"⟩,
              queries := [q], stderr := ["Error adding item: " ++ err.message], db := s1 }

/-! ## Startup bootstrap -/

/-- The observable effects of the startup chain, in program order. -/
inductive BootEvent where
  | stdout (line : String)
  | stderr (line : String)
  | query (q : Query)
  | release
  | exit (code : Nat)

/-- The promise chain on `pool.connect()`, lines 18-38, as a function of how the two
promises settle: `connected` for `pool.connect()`, `created` for `client.query(...)`.
The inner `then`/`catch` pair handles the query, so the outer `catch` runs only on a
rejected `pool.connect()`; `process.exit(1)` ends the trace. -/
def bootstrap (connected : Except JSError Unit) (created : Except JSError QueryResult) :
    List BootEvent :=
  match connected with
  | .ok _ =>
      .stdout "Connected to PostgreSQL database!" :: .query ⟨createTableSql, []⟩ ::
        (match created with
         | .ok _ => [.release, .stdout "Table \"test_items\" checked/created."]
         | .error err => [.release, .stderr ("Error creating table: " ++ err.message)])
  | .error err =>
      [.stderr ("Failed to connect to PostgreSQL: " ++ err.message), .exit 1]

/-- The status the process exits with during the bootstrap, if it exits. -/
def exitCode : List BootEvent → Option Nat
  | [] => none
  | .exit code :: _ => some code
  | _ :: rest => exitCode rest

/-- The number of `client.release()` calls in a trace. -/
def releaseCount : List BootEvent → Nat
  | [] => 0
  | .release :: rest => releaseCount rest + 1
  | _ :: rest => releaseCount rest

/-! ## PostgreSQL on the statements of the service

The table of lines 22-26: `id SERIAL PRIMARY KEY`, `name VARCHAR(255) NOT NULL`,
`created_at TIMESTAMP DEFAULT CURRENT_TIMESTAMP`. -/

/-- A row of `test_items`: `name` is a text in the database encoding UTF-8, `created_at` is
in microseconds. -/
structure Item where
  id : Nat
  name : String
  created_at : Nat

/-- The database: the rows of `test_items` in storage order, the last value handed out by
the sequence behind `id SERIAL`, and the reading of the database clock. -/
structure PgState where
  rows : List Item
  seq : Nat
  now : Nat

/-- The table right after `CREATE TABLE`: no rows, the sequence untouched. -/
def freshTable (now : Nat) : PgState := ⟨[], 0, now⟩

/-- The database clock reads `t`. -/
def PgState.atTime (s : PgState) (t : Nat) : PgState := { s with now := t }

/-- A row as the driver hands it to JavaScript: the timestamp becomes a `Date`, which keeps
whole milliseconds. -/
def Item.toRow (it : Item) : JSVal :=
  .obj [("id", .num (.finite it.id)), ("name", .str (utf16 it.name)),
    ("created_at", .date (it.created_at / 1000))]

/-- The driver's encoding of a bound parameter: `null` and `undefined` become SQL `NULL`,
a string is sent in UTF-8 (a surrogate that stands alone becomes U+FFFD), a boolean as
`true` or `false`. `enc` stands for the driver's text encoding of the remaining values
(numbers, dates, arrays, objects). -/
def prepareValue (enc : JSVal → String) : JSVal → Option String
  | .undefined => none
  | .null => none
  | .str s => some (decodeUtf16 s)
  | .bool b => some (if b then "true" else "false")
  | v => some (enc v)

/-- The largest value of the `integer` sequence behind `SERIAL`. -/
def serialMax : Nat := 2147483647

/-- Assignment to `VARCHAR(255)`: a value of at most 255 characters is stored as it is; a longer
one is an error unless every character after the 255th is a space, and is then cut to 255. -/
def varchar255 (txt : String) : Option String :=
  if txt.length ≤ 255 then some txt
  else if (txt.data.drop 255).all (fun c => c == ' ') then some (String.mk (txt.data.take 255))
  else none

/-- `ORDER BY created_at DESC`; rows with equal `created_at` stay in storage order. -/
def orderByCreatedAtDesc (rows : List Item) : List Item :=
  rows.insertionSort (fun a b => b.created_at ≤ a.created_at)

/-- `INSERT INTO test_items (name) VALUES ($1) RETURNING *` with the text bound to `$1`.
A text with a NUL character, or one that `VARCHAR(255)` does not take, is refused before the
statement runs. Otherwise `id` takes the next value of the sequence (kept also when a
constraint then fails), `created_at` is the clock reading, `NOT NULL` refuses a missing name
and the primary key refuses an `id` already in the table. -/
def pgInsert (param : Option String) (s : PgState) : Except JSError QueryResult × PgState :=
  match param with
  | none =>
      if serialMax ≤ s.seq then
        (.error ⟨"nextval: reached maximum value of sequence \"test_items_id_seq\""⟩, s)
      else
        (.error ⟨"null value in column \"name\" violates not-null constraint"⟩,
          { s with seq := s.seq + 1 })
  | some txt =>
      if Char.ofNat 0 ∈ txt.data then
        (.error ⟨"invalid byte sequence for encoding \"UTF8\": 0x00"⟩, s)
      else
        match varchar255 txt with
        | none => (.error ⟨"value too long for type character varying(255)"⟩, s)
        | some stored =>
            if serialMax ≤ s.seq then
              (.error ⟨"nextval: reached maximum value of sequence \"test_items_id_seq\""⟩, s)
            else if s.rows.any (fun r => r.id == s.seq + 1) then
              (.error ⟨"duplicate key value violates unique constraint \"test_items_pkey\""⟩,
                { s with seq := s.seq + 1 })
            else
              let it : Item := ⟨s.seq + 1, stored, s.now⟩
              (.ok ⟨[it.toRow]⟩, { s with rows := s.rows ++ [it], seq := s.seq + 1 })

/-- PostgreSQL behind `pool.query`, on the four statements of `index.js`; any other
statement, or a wrong number of bound values, is an error. -/
def pgQuery (enc : JSVal → String) : Pool PgState := fun q s =>
  if q.text = selectNowSql then
    match q.params with
    | [] => (.ok ⟨[.obj [("current_time", .date (s.now / 1000))]]⟩, s)
    | _ => (.error ⟨"bind message supplies the wrong number of parameters"⟩, s)
  else if q.text = selectItemsSql then
    match q.params with
    | [] => (.ok ⟨(orderByCreatedAtDesc s.rows).map Item.toRow⟩, s)
    | _ => (.error ⟨"bind message supplies the wrong number of parameters"⟩, s)
  else if q.text = insertItemSql then
    match q.params with
    | [p] => pgInsert (prepareValue enc p) s
    | _ => (.error ⟨"bind message supplies the wrong number of parameters"⟩, s)
  else if q.text = createTableSql then
    match q.params with
    | [] => (.ok ⟨[]⟩, s)
    | _ => (.error ⟨"bind message supplies the wrong number of parameters"⟩, s)
  else (.error ⟨"syntax error"⟩, s)

/-! ## Inputs and statements of the properties -/

/-- A pool whose every query is rejected with the given error: the database is unreachable. -/
def downPool (err : JSError) : Pool Unit := fun _ s => (.error err, s)

/-- A request whose JSON body is the object with the given fields. -/
def jsonRequest (fields : List (String × JSVal)) : Request := ⟨.obj fields⟩

/-- The database after a POST /items that arrives when the database clock reads `t`. -/
def afterPost (enc : JSVal → String) (req : Request) (t : Nat) (s : PgState) : PgState :=
  (postItems (pgQuery enc) req (s.atTime t)).db

/-- The statement C2 makes about a POST /items over PostgreSQL in state `s`: whenever the
name is truthy and the insert resolves, the response is 201 with the first row of the
result, which is the new item: numbered by the sequence, stamped by the clock, and showing
a `name` equal to the submitted value. -/
def EchoesSubmittedName (enc : JSVal → String) (req : Request) (s : PgState) : Prop :=
  ∀ (name : JSVal) (result : QueryResult), req.body.getProp "name" = .ok name →
    name.truthy = true → (pgQuery enc ⟨insertItemSql, [name]⟩ s).1 = .ok result →
    ∃ it : Item, (postItems (pgQuery enc) req s).outcome = .responded ⟨201, .json it.toRow⟩
      ∧ it.toRow = firstRow result.rows ∧ it.id = s.seq + 1 ∧ it.created_at = s.now
      ∧ JSVal.str (utf16 it.name) = name

/-- The statement C4 makes about three POST /items requests `ra`, `rb`, `rc` served in that
order from the state `s0`, at the clock readings `ta`, `tb`, `tc`, and a GET /items served
after them at the reading `tl`: if the three are answered 201 with the items `a`, `b`, `c`,
the list is answered 200 with exactly `c`, `b`, `a`. -/
def ListsNewestFirst (enc : JSVal → String) (s0 : PgState) (ra rb rc : Request)
    (ta tb tc tl : Nat) : Prop :=
  ∀ a b c : JSVal,
    (postItems (pgQuery enc) ra (s0.atTime ta)).outcome = .responded ⟨201, .json a⟩ →
    (postItems (pgQuery enc) rb ((afterPost enc ra ta s0).atTime tb)).outcome =
      .responded ⟨201, .json b⟩ →
    (postItems (pgQuery enc) rc
        ((afterPost enc rb tb (afterPost enc ra ta s0)).atTime tc)).outcome =
      .responded ⟨201, .json c⟩ →
    (getItems (pgQuery enc)
        ((afterPost enc rc tc (afterPost enc rb tb (afterPost enc ra ta s0))).atTime tl)).outcome =
      .responded ⟨200, .json (.arr [c, b, a])⟩

/-- The statement C5 makes about a POST /items with the string `name` served in the state `s`
and a GET /items served after it at the clock reading `tl`: the list after the POST is the
list before it plus exactly one item, which was not listed before, shows the submitted name,
has an `id` that no stored row had, and shows a `created_at` not earlier than `requestTime`,
the reading of the database clock (in microseconds) when the request arrived. -/
def CreateThenListAddsOne (enc : JSVal → String) (req : Request) (name : JSString)
    (s : PgState) (tl requestTime : Nat) : Prop :=
  ∃ (old new : List JSVal) (it : Item),
    (getItems (pgQuery enc) s).outcome = .responded ⟨200, .json (.arr old)⟩
    ∧ (getItems (pgQuery enc) ((postItems (pgQuery enc) req s).db.atTime tl)).outcome =
        .responded ⟨200, .json (.arr new)⟩
    ∧ new.Perm (it.toRow :: old) ∧ it.toRow ∉ old
    ∧ utf16 it.name = name ∧ (∀ r ∈ s.rows, r.id ≠ it.id)
    ∧ requestTime ≤ 1000 * (it.created_at / 1000)

/-- The states of the database the service can bring about: it starts on the fresh table,
the clock moves, and the three handlers run. -/
inductive Reachable (enc : JSVal → String) : PgState → Prop where
  | fresh (now : Nat) : Reachable enc (freshTable now)
  | tick (s : PgState) (t : Nat) : Reachable enc s → Reachable enc (s.atTime t)
  | root (toStr : JSVal → String) (s : PgState) :
      Reachable enc s → Reachable enc (getRoot toStr (pgQuery enc) s).db
  | list (s : PgState) : Reachable enc s → Reachable enc (getItems (pgQuery enc) s).db
  | post (req : Request) (s : PgState) :
      Reachable enc s → Reachable enc (postItems (pgQuery enc) req s).db

/-- Every stored `id` was handed out by the sequence, and the sequence is untouched while the
table has no rows. -/
def PgState.Consistent (s : PgState) : Prop :=
  (∀ r ∈ s.rows, r.id ≤ s.seq) ∧ (s.rows = [] → s.seq = 0)

/-- A name of 256 letters `a`: one more than `VARCHAR(255)` holds. -/
def longName : JSString := List.replicate 256 97

/-- A name of 255 letters `a` followed by three spaces. -/
def paddedName : JSString := List.replicate 255 97 ++ List.replicate 3 32

/-- The name of the JSON text `"a\ud800b"`: a high surrogate that stands alone between two
letters. -/
def loneSurrogateName : JSString := [97, 0xD800, 98]

/-! ## Handler equations -/

/-- The list statement and the time statement differ. -/
theorem selectItemsSql_ne_selectNowSql : selectItemsSql ≠ selectNowSql := by decide

/-- The insert statement and the time statement differ. -/
theorem insertItemSql_ne_selectNowSql : insertItemSql ≠ selectNowSql := by decide

/-- The insert statement and the list statement differ. -/
theorem insertItemSql_ne_selectItemsSql : insertItemSql ≠ selectItemsSql := by decide

/-- PostgreSQL on `SELECT NOW() as current_time`. -/
theorem pgQuery_selectNow (enc : JSVal → String) (s : PgState) :
    pgQuery enc ⟨selectNowSql, []⟩ s =
      (.ok ⟨[.obj [("current_time", .date (s.now / 1000))]]⟩, s) := by
  simp [pgQuery]

/-- PostgreSQL on the list statement. -/
theorem pgQuery_selectItems (enc : JSVal → String) (s : PgState) :
    pgQuery enc ⟨selectItemsSql, []⟩ s =
      (.ok ⟨(orderByCreatedAtDesc s.rows).map Item.toRow⟩, s) := by
  simp [pgQuery, selectItemsSql_ne_selectNowSql]

/-- PostgreSQL on the insert statement with one bound value. -/
theorem pgQuery_insertItem (enc : JSVal → String) (p : JSVal) (s : PgState) :
    pgQuery enc ⟨insertItemSql, [p]⟩ s = pgInsert (prepareValue enc p) s := by
  simp [pgQuery, insertItemSql_ne_selectNowSql, insertItemSql_ne_selectItemsSql]

/-- GET / when the query is rejected. -/
theorem getRoot_of_error {σ : Type} (toStr : JSVal → String) (pool : Pool σ) (s s1 : σ)
    (err : JSError) (h : pool ⟨selectNowSql, []⟩ s = (.error err, s1)) :
    getRoot toStr pool s =
      { outcome := .responded ⟨500, .text "Error connecting to database"⟩,
        queries := [⟨selectNowSql, []⟩],
        stderr := ["Error fetching time: " ++ err.message], db := s1 } := by
  simp [getRoot, h]

/-- GET /items when the query resolves. -/
theorem getItems_of_ok {σ : Type} (pool : Pool σ) (s s1 : σ) (result : QueryResult)
    (h : pool ⟨selectItemsSql, []⟩ s = (.ok result, s1)) :
    getItems pool s =
      { outcome := .responded ⟨200, .json (.arr result.rows)⟩,
        queries := [⟨selectItemsSql, []⟩], stderr := [], db := s1 } := by
  simp [getItems, h]

/-- GET /items when the query is rejected. -/
theorem getItems_of_error {σ : Type} (pool : Pool σ) (s s1 : σ) (err : JSError)
    (h : pool ⟨selectItemsSql, []⟩ s = (.error err, s1)) :
    getItems pool s =
      { outcome := .responded ⟨500, .text "Error fetching items from database"⟩,
        queries := [⟨selectItemsSql, []⟩],
        stderr := ["Error fetching items: " ++ err.message], db := s1 } := by
  simp [getItems, h]

/-- POST /items when `name` is falsy. -/
theorem postItems_of_falsy {σ : Type} (pool : Pool σ) (req : Request) (s : σ) (name : JSVal)
    (hname : req.body.getProp "name" = .ok name) (hfalsy : name.truthy = false) :
    postItems pool req s =
      { outcome := .responded ⟨400, .text "Item name is required in the request body."⟩,
        queries := [], stderr := [], db := s } := by
  simp [postItems, hname, hfalsy]

/-- POST /items when `name` is truthy and the insert resolves. -/
theorem postItems_of_ok {σ : Type} (pool : Pool σ) (req : Request) (s s1 : σ) (name : JSVal)
    (result : QueryResult) (hname : req.body.getProp "name" = .ok name)
    (htruthy : name.truthy = true) (h : pool ⟨insertItemSql, [name]⟩ s = (.ok result, s1)) :
    postItems pool req s =
      { outcome := .responded ⟨201, .json (firstRow result.rows)⟩,
        queries := [⟨insertItemSql, [name]⟩], stderr := [], db := s1 } := by
  simp [postItems, hname, htruthy, h]

/-- POST /items when `name` is truthy and the insert is rejected. -/
theorem postItems_of_error {σ : Type} (pool : Pool σ) (req : Request) (s s1 : σ) (name : JSVal)
    (err : JSError) (hname : req.body.getProp "name" = .ok name)
    (htruthy : name.truthy = true) (h : pool ⟨insertItemSql, [name]⟩ s = (.error err, s1)) :
    postItems pool req s =
      { outcome := .responded ⟨500, .text "Error adding item to database"⟩,
        queries := [⟨insertItemSql, [name]⟩],
        stderr := ["Error adding item: " ++ err.message], db := s1 } := by
  simp [postItems, hname, htruthy, h]

/-! ## Facts about strings -/

/-- A character is read back from its code units. -/
theorem decodeFrom_utf16Char (c : Char) (rest : JSString) :
    decodeFrom none (utf16Char c ++ rest) = c :: decodeFrom none rest := by
  have hv := c.valid
  have hc : c.toNat = c.val.toNat := rfl
  unfold utf16Char
  split
  · have h1 : isHighSurrogate c.toNat = false := by
      simp only [isHighSurrogate, decide_eq_false_iff_not]
      rcases hv with hv | hv
      · have : c.val.toNat < 0xD800 := hv
        omega
      · have : 0xDFFF < c.val.toNat := hv.1
        omega
    have h2 : isLowSurrogate c.toNat = false := by
      simp only [isLowSurrogate, decide_eq_false_iff_not]
      rcases hv with hv | hv
      · have : c.val.toNat < 0xD800 := hv
        omega
      · have : 0xDFFF < c.val.toNat := hv.1
        omega
    simp [decodeFrom, h1, h2, Char.ofNat_toNat]
  · have hlt : c.toNat < 0x110000 := by
      rcases hv with hv | hv
      · have : c.val.toNat < 0xD800 := hv
        omega
      · have : c.val.toNat < 0x110000 := hv.2
        omega
    have h1 : isHighSurrogate (0xD800 + (c.toNat - 0x10000) / 0x400) = true := by
      simp only [isHighSurrogate, decide_eq_true_eq]
      omega
    have h2 : isLowSurrogate (0xDC00 + (c.toNat - 0x10000) % 0x400) = true := by
      simp only [isLowSurrogate, decide_eq_true_eq]
      omega
    have h3 : 0x10000 + (0xD800 + (c.toNat - 0x10000) / 0x400 - 0xD800) * 0x400
        + (0xDC00 + (c.toNat - 0x10000) % 0x400 - 0xDC00) = c.toNat := by
      omega
    simp only [List.cons_append, List.nil_append, decodeFrom, h1, h2, if_true, h3,
      Char.ofNat_toNat]
    rfl

/-- A text is read back unchanged from its JavaScript string. -/
theorem decodeUtf16_utf16 (s : String) : decodeUtf16 (utf16 s) = s := by
  have key : ∀ cs : List Char, decodeFrom none (cs.flatMap utf16Char) = cs := by
    intro cs
    induction cs with
    | nil => rfl
    | cons c cs ih => rw [List.flatMap_cons, decodeFrom_utf16Char, ih]
  unfold decodeUtf16 utf16
  rw [key]

/-- The JavaScript string of a non-empty text is not empty. -/
theorem utf16_ne_nil (s : String) (h : s ≠ "") : utf16 s ≠ [] := by
  intro hnil
  apply h
  rw [← decodeUtf16_utf16 s, hnil]
  rfl

/-- The JavaScript string of a run of one character below U+10000. -/
theorem utf16_replicate (n : Nat) (c : Char) (hc : c.toNat < 0x10000) :
    utf16 (String.mk (List.replicate n c)) = List.replicate n c.toNat := by
  unfold utf16
  induction n with
  | zero => rfl
  | succ n ih =>
      rw [List.replicate_succ, List.flatMap_cons, ih, utf16Char, if_pos hc]
      rfl

/-- Code units below the surrogates are characters of their own. -/
theorem decodeFrom_replicate (n u : Nat) (hu : u < 0xD800) (rest : JSString) :
    decodeFrom none (List.replicate n u ++ rest) =
      List.replicate n (Char.ofNat u) ++ decodeFrom none rest := by
  have h1 : isHighSurrogate u = false := by
    simp only [isHighSurrogate, decide_eq_false_iff_not]
    omega
  have h2 : isLowSurrogate u = false := by
    simp only [isLowSurrogate, decide_eq_false_iff_not]
    omega
  induction n with
  | zero => rfl
  | succ n ih =>
      rw [List.replicate_succ, List.cons_append, decodeFrom, h1, h2, ih]
      rfl

/-! ## Facts about the database model -/

/-- A text of at most 255 characters is stored unchanged. -/
theorem varchar255_of_length_le (txt : String) (h : txt.length ≤ 255) :
    varchar255 txt = some txt := by
  simp [varchar255, h]

/-- A resolved insert stored exactly one new row, numbered by the sequence and stamped by the
clock, and its `id` was not in the table. -/
theorem pgInsert_ok (param : Option String) (s s1 : PgState) (result : QueryResult)
    (h : pgInsert param s = (.ok result, s1)) :
    ∃ txt stored, param = some txt ∧ varchar255 txt = some stored
      ∧ (∀ r ∈ s.rows, r.id ≠ s.seq + 1)
      ∧ result = ⟨[Item.toRow ⟨s.seq + 1, stored, s.now⟩]⟩
      ∧ s1 = ⟨s.rows ++ [⟨s.seq + 1, stored, s.now⟩], s.seq + 1, s.now⟩ := by
  unfold pgInsert at h
  split at h
  · split at h <;> simp at h
  · rename_i txt
    split at h
    · simp at h
    · split at h
      · simp at h
      · rename_i stored hstored
        split at h
        · simp at h
        · split at h
          · simp at h
          · rename_i hfree
            simp only [Prod.mk.injEq, Except.ok.injEq] at h
            refine ⟨txt, stored, rfl, hstored, ?_, h.1.symm, h.2.symm⟩
            intro r hr hid
            apply hfree
            simp only [List.any_eq_true, beq_iff_eq]
            exact ⟨r, hr, hid⟩

/-- An insert resolves when the text has no NUL character and fits the column, the sequence
is not exhausted and every `id` in the table was handed out by the sequence. -/
theorem pgInsert_of_valid (txt : String) (s : PgState) (hnul : Char.ofNat 0 ∉ txt.data)
    (hlen : txt.length ≤ 255) (hseq : s.seq < serialMax) (hids : ∀ r ∈ s.rows, r.id ≤ s.seq) :
    pgInsert (some txt) s =
      (.ok ⟨[Item.toRow ⟨s.seq + 1, txt, s.now⟩]⟩,
        ⟨s.rows ++ [⟨s.seq + 1, txt, s.now⟩], s.seq + 1, s.now⟩) := by
  have hfree : s.rows.any (fun r => r.id == s.seq + 1) = false := by
    rw [List.any_eq_false]
    intro r hr
    have := hids r hr
    simp only [beq_iff_eq]
    omega
  simp [pgInsert, hnul, Nat.not_le.mpr hseq, varchar255_of_length_le txt hlen, hfree]

/-- A 201 from POST /items over PostgreSQL means that the insert stored a new row, and the
response body is that row. -/
theorem postItems_pg_created (enc : JSVal → String) (req : Request) (s : PgState) (b : Body)
    (h : (postItems (pgQuery enc) req s).outcome = .responded ⟨201, b⟩) :
    ∃ name txt stored, req.body.getProp "name" = .ok name ∧ name.truthy = true
      ∧ prepareValue enc name = some txt ∧ varchar255 txt = some stored
      ∧ (∀ r ∈ s.rows, r.id ≠ s.seq + 1)
      ∧ b = .json (Item.toRow ⟨s.seq + 1, stored, s.now⟩)
      ∧ (postItems (pgQuery enc) req s).db =
          ⟨s.rows ++ [⟨s.seq + 1, stored, s.now⟩], s.seq + 1, s.now⟩ := by
  cases hname : req.body.getProp "name" with
  | error err => simp [postItems, hname] at h
  | ok name =>
      cases htruthy : name.truthy with
      | false =>
          rw [postItems_of_falsy _ req s name hname htruthy] at h
          simp at h
      | true =>
          rcases hq : pgQuery enc ⟨insertItemSql, [name]⟩ s with ⟨r, s1⟩
          cases r with
          | error err =>
              rw [postItems_of_error _ req s s1 name err hname htruthy hq] at h
              simp at h
          | ok result =>
              rw [postItems_of_ok _ req s s1 name result hname htruthy hq] at h ⊢
              rw [pgQuery_insertItem] at hq
              obtain ⟨txt, stored, hp, hv, hfree, hres, hs1⟩ := pgInsert_ok _ s s1 result hq
              refine ⟨name, txt, stored, rfl, htruthy, hp, hv, hfree, ?_, hs1⟩
              simp only [Outcome.responded.injEq, Response.mk.injEq, true_and] at h
              rw [← h, hres]
              rfl

/-- A POST /items with a non-empty string whose text the table accepts, in full. -/
theorem postItems_pg_of_valid (enc : JSVal → String) (req : Request) (s : PgState)
    (name : JSString) (hname : req.body.getProp "name" = .ok (.str name)) (hne : name ≠ [])
    (hnul : Char.ofNat 0 ∉ (decodeUtf16 name).data) (hlen : (decodeUtf16 name).length ≤ 255)
    (hseq : s.seq < serialMax) (hids : ∀ r ∈ s.rows, r.id ≤ s.seq) :
    postItems (pgQuery enc) req s =
      { outcome := .responded ⟨201, .json (Item.toRow ⟨s.seq + 1, decodeUtf16 name, s.now⟩)⟩,
        queries := [⟨insertItemSql, [.str name]⟩], stderr := [],
        db := ⟨s.rows ++ [⟨s.seq + 1, decodeUtf16 name, s.now⟩], s.seq + 1, s.now⟩ } := by
  have hq : pgQuery enc ⟨insertItemSql, [.str name]⟩ s =
      (.ok ⟨[Item.toRow ⟨s.seq + 1, decodeUtf16 name, s.now⟩]⟩,
        ⟨s.rows ++ [⟨s.seq + 1, decodeUtf16 name, s.now⟩], s.seq + 1, s.now⟩) := by
    rw [pgQuery_insertItem]
    exact pgInsert_of_valid (decodeUtf16 name) s hnul hlen hseq hids
  rw [postItems_of_ok (pgQuery enc) req s _ (.str name) _ hname
    (by simp [JSVal.truthy, hne]) hq]
  rfl

/-- A POST /items with the JavaScript string of a non-empty text that the table accepts, in
full. -/
theorem postItems_pg_of_text (enc : JSVal → String) (req : Request) (s : PgState)
    (nm : String) (hname : req.body.getProp "name" = .ok (.str (utf16 nm))) (hne : nm ≠ "")
    (hnul : Char.ofNat 0 ∉ nm.data) (hlen : nm.length ≤ 255) (hseq : s.seq < serialMax)
    (hids : ∀ r ∈ s.rows, r.id ≤ s.seq) :
    postItems (pgQuery enc) req s =
      { outcome := .responded ⟨201, .json (Item.toRow ⟨s.seq + 1, nm, s.now⟩)⟩,
        queries := [⟨insertItemSql, [.str (utf16 nm)]⟩], stderr := [],
        db := ⟨s.rows ++ [⟨s.seq + 1, nm, s.now⟩], s.seq + 1, s.now⟩ } := by
  have h := postItems_pg_of_valid enc req s (utf16 nm) hname (utf16_ne_nil nm hne)
    (by rw [decodeUtf16_utf16]; exact hnul) (by rw [decodeUtf16_utf16]; exact hlen) hseq hids
  rw [decodeUtf16_utf16] at h
  exact h

/-- GET /items over PostgreSQL, in full. -/
theorem getItems_pg (enc : JSVal → String) (s : PgState) :
    getItems (pgQuery enc) s =
      { outcome := .responded ⟨200, .json (.arr ((orderByCreatedAtDesc s.rows).map Item.toRow))⟩,
        queries := [⟨selectItemsSql, []⟩], stderr := [], db := s } :=
  getItems_of_ok (pgQuery enc) s s _ (pgQuery_selectItems enc s)

/-- A truthy value is never sent as SQL `NULL`. -/
theorem prepareValue_of_truthy (enc : JSVal → String) (v : JSVal) (h : v.truthy = true) :
    ∃ txt, prepareValue enc v = some txt := by
  cases v <;> simp [JSVal.truthy] at h <;> exact ⟨_, rfl⟩

/-- An insert of a text keeps the state consistent. -/
theorem pgInsert_consistent (txt : String) (s : PgState) (h : s.Consistent) :
    (pgInsert (some txt) s).2.Consistent := by
  obtain ⟨hids, hfresh⟩ := h
  unfold pgInsert
  simp only
  split
  · exact ⟨hids, hfresh⟩
  · split
    · exact ⟨hids, hfresh⟩
    · split
      · exact ⟨hids, hfresh⟩
      · split
        · rename_i hdup
          refine ⟨fun r hr => Nat.le_succ_of_le (hids r hr), ?_⟩
          intro hnil
          simp only at hnil
          rw [hnil] at hdup
          simp at hdup
        · refine ⟨?_, ?_⟩
          · intro r hr
            simp only [List.mem_append, List.mem_singleton] at hr
            rcases hr with hr | hr
            · exact Nat.le_succ_of_le (hids r hr)
            · subst hr
              exact le_refl _
          · intro hnil
            simp at hnil

/-- POST /items over PostgreSQL keeps the state consistent. -/
theorem postItems_pg_consistent (enc : JSVal → String) (req : Request) (s : PgState)
    (h : s.Consistent) : (postItems (pgQuery enc) req s).db.Consistent := by
  cases hname : req.body.getProp "name" with
  | error err =>
      simp only [postItems, hname]
      exact h
  | ok name =>
      cases htruthy : name.truthy with
      | false =>
          rw [postItems_of_falsy _ req s name hname htruthy]
          exact h
      | true =>
          obtain ⟨txt, htxt⟩ := prepareValue_of_truthy enc name htruthy
          have hc := pgInsert_consistent txt s h
          rcases hq : pgQuery enc ⟨insertItemSql, [name]⟩ s with ⟨r, s1⟩
          have hs1 : s1 = (pgInsert (some txt) s).2 := by
            rw [pgQuery_insertItem, htxt] at hq
            rw [hq]
          cases r with
          | error err =>
              rw [postItems_of_error _ req s s1 name err hname htruthy hq, hs1]
              exact hc
          | ok result =>
              rw [postItems_of_ok _ req s s1 name result hname htruthy hq, hs1]
              exact hc

/-- GET / over PostgreSQL leaves the database as it was. -/
theorem getRoot_pg_db (toStr : JSVal → String) (enc : JSVal → String) (s : PgState) :
    (getRoot toStr (pgQuery enc) s).db = s := by
  simp [getRoot, pgQuery_selectNow, firstRow, JSVal.getProp]

/-- Every state the service can bring about is consistent. -/
theorem Reachable.consistent (enc : JSVal → String) (s : PgState) (h : Reachable enc s) :
    s.Consistent := by
  induction h with
  | fresh now => exact ⟨by simp [freshTable], fun _ => rfl⟩
  | tick s t _ ih => exact ih
  | root toStr s _ ih =>
      rw [getRoot_pg_db]
      exact ih
  | list s _ ih =>
      rw [getItems_pg]
      exact ih
  | post req s _ ih => exact postItems_pg_consistent enc req s ih

/-- The text of `longName`: 256 letters. -/
theorem decodeUtf16_longName : decodeUtf16 longName = String.mk (List.replicate 256 'a') := by
  have h := decodeFrom_replicate 256 97 (by decide) []
  rw [List.append_nil, show decodeFrom none [] = [] from rfl, List.append_nil] at h
  unfold decodeUtf16 longName
  rw [h]

/-- The text of `paddedName`: 255 letters and three spaces. -/
theorem decodeUtf16_paddedName :
    decodeUtf16 paddedName = String.mk (List.replicate 255 'a' ++ List.replicate 3 ' ') := by
  have h3 := decodeFrom_replicate 3 32 (by decide) []
  rw [List.append_nil, show decodeFrom none [] = [] from rfl, List.append_nil] at h3
  have h := decodeFrom_replicate 255 97 (by decide) (List.replicate 3 32)
  unfold decodeUtf16 paddedName
  rw [h, h3]

/-- Rows that are equal as JavaScript values have the same `id`. -/
theorem Item.toRow_id_eq (x y : Item) (h : x.toRow = y.toRow) : x.id = y.id := by
  simp only [Item.toRow, JSVal.obj.injEq, List.cons.injEq, Prod.mk.injEq, JSVal.num.injEq,
    JSNum.finite.injEq, Nat.cast_inj, true_and] at h
  exact h.1

/-- Rows that are equal as JavaScript values show the same name and the same `created_at`. -/
theorem Item.toRow_shown_eq (x y : Item) (h : x.toRow = y.toRow) :
    utf16 x.name = utf16 y.name ∧ x.created_at / 1000 = y.created_at / 1000 := by
  simp only [Item.toRow, JSVal.obj.injEq, List.cons.injEq, Prod.mk.injEq, JSVal.str.injEq,
    JSVal.date.injEq, true_and, and_true] at h
  exact ⟨h.2.1, h.2.2⟩

/-! ## Validation of `name` -/

/-- C1 as stated fails at a POST /items that carries no parsed body (`req.body` is
`undefined`), which has no `name` field: the destructuring of line 61 throws before the
check of line 62, so the handler ends with the exception and writes no 400 response. -/
theorem postItems_without_body_throws :
    (postItems (pgQuery (fun _ => "")) ⟨.undefined⟩ (freshTable 0)).outcome =
        .rejected ⟨"Cannot read properties of undefined (reading \x27name\x27)"⟩
    ∧ (postItems (pgQuery (fun _ => "")) ⟨.undefined⟩ (freshTable 0)).outcome ≠
        .responded ⟨400, .text "Item name is required in the request body."⟩ := by
  have h : (postItems (pgQuery (fun _ => "")) ⟨.undefined⟩ (freshTable 0)).outcome =
      .rejected ⟨"Cannot read properties of undefined (reading \x27name\x27)"⟩ := rfl
  refine ⟨h, ?_⟩
  rw [h]
  intro hne
  cases hne

/-- C1, amended. A POST /items with a parsed body (`req.body` is neither `undefined` nor
`null`, so that `name` can be read from it) whose body has no `name` field, or whose `name`
is falsy, is answered with status 400 and the text 'Item name is required in the request body.'; the handler
sends no query and the database state, hence the stored rows, is unchanged. A body without
the field reads as `undefined`, and `undefined`, `null`, the empty string, `0` and `false` are
all falsy. -/
theorem postItems_rejects_missing_name {σ : Type} (pool : Pool σ) (req : Request) (s : σ)
    (name : JSVal) (hname : req.body.getProp "name" = .ok name)
    (hfalsy : name.truthy = false) :
    ((postItems pool req s).outcome =
        .responded ⟨400, .text "Item name is required in the request body."⟩
      ∧ (postItems pool req s).queries = []
      ∧ (postItems pool req s).db = s)
    ∧ (∀ fields : List (String × JSVal), fields.lookup "name" = none →
        (JSVal.obj fields).getProp "name" = .ok .undefined)
    ∧ JSVal.undefined.truthy = false ∧ JSVal.null.truthy = false
    ∧ (JSVal.str []).truthy = false ∧ (JSVal.num (.finite 0)).truthy = false
    ∧ (JSVal.bool false).truthy = false := by
  rw [postItems_of_falsy pool req s name hname hfalsy]
  refine ⟨⟨rfl, rfl, rfl⟩, ?_, rfl, rfl, ?_, ?_, rfl⟩
  · intro fields h
    simp [JSVal.getProp, h]
  · simp [JSVal.truthy]
  · simp [JSVal.truthy, JSNum.truthy]

/-- C1 at the body `{}` and at the body `{"name": ""}`, on a fresh table. -/
theorem postItems_rejects_missing_name_witness :
    (postItems (pgQuery (fun _ => "")) (jsonRequest []) (freshTable 0)).outcome =
        .responded ⟨400, .text "Item name is required in the request body."⟩
      ∧ (postItems (pgQuery (fun _ => "")) (jsonRequest []) (freshTable 0)).queries = []
      ∧ (postItems (pgQuery (fun _ => "")) (jsonRequest [("name", .str [])])
          (freshTable 0)).db.rows.length = (freshTable 0).rows.length :=
  ⟨(postItems_rejects_missing_name (pgQuery (fun _ => "")) (jsonRequest []) (freshTable 0)
      .undefined rfl rfl).1.1,
   (postItems_rejects_missing_name (pgQuery (fun _ => "")) (jsonRequest []) (freshTable 0)
      .undefined rfl rfl).1.2.1,
   by rw [(postItems_rejects_missing_name (pgQuery (fun _ => ""))
      (jsonRequest [("name", .str [])]) (freshTable 0) (.str []) rfl
      (by decide)).1.2.2]⟩

/-! ## Creating an item -/

/-- The insert of a boolean `true` on a fresh table. -/
theorem pgQuery_insert_true :
    pgQuery (fun _ => "") ⟨insertItemSql, [.bool true]⟩ (freshTable 0) =
      (.ok ⟨[Item.toRow ⟨1, "true", 0⟩]⟩, ⟨[⟨1, "true", 0⟩], 1, 0⟩) := by
  rw [pgQuery_insertItem]
  exact pgInsert_of_valid "true" (freshTable 0) (by decide) (by decide) (by decide)
    (by simp [freshTable])

/-- The insert of `loneSurrogateName` on a fresh table stores a U+FFFD for the surrogate. -/
theorem pgQuery_insert_loneSurrogateName :
    pgQuery (fun _ => "") ⟨insertItemSql, [.str loneSurrogateName]⟩ (freshTable 0) =
      (.ok ⟨[Item.toRow ⟨1, String.mk ['a', replacementChar, 'b'], 0⟩]⟩,
        ⟨[⟨1, String.mk ['a', replacementChar, 'b'], 0⟩], 1, 0⟩) := by
  rw [pgQuery_insertItem]
  exact pgInsert_of_valid (String.mk ['a', replacementChar, 'b']) (freshTable 0) (by decide)
    (by decide) (by decide) (by simp [freshTable])

/-- The column `VARCHAR(255)` cuts the text of `paddedName` to its 255 letters. -/
theorem varchar255_paddedName :
    varchar255 (decodeUtf16 paddedName) = some (String.mk (List.replicate 255 'a')) := by
  rw [decodeUtf16_paddedName]
  unfold varchar255
  have hlen : (String.mk (List.replicate 255 'a' ++ List.replicate 3 ' ')).length = 258 := by
    show (List.replicate 255 'a' ++ List.replicate 3 ' ').length = 258
    rw [List.length_append, List.length_replicate, List.length_replicate]
  have h255 : (List.replicate 255 'a').length = 255 := List.length_replicate _ _
  rw [if_neg (by rw [hlen]; decide)]
  show (if (List.drop 255 (List.replicate 255 'a' ++ List.replicate 3 ' ')).all
      (fun c => c == ' ') = true then
        some (String.mk (List.take 255 (List.replicate 255 'a' ++ List.replicate 3 ' ')))
      else none) = _
  rw [List.drop_left' h255, List.take_left' h255, if_pos (by decide)]

/-- The insert of `paddedName` on a fresh table stores the 255 letters without the spaces. -/
theorem pgQuery_insert_paddedName :
    pgQuery (fun _ => "") ⟨insertItemSql, [.str paddedName]⟩ (freshTable 0) =
      (.ok ⟨[Item.toRow ⟨1, String.mk (List.replicate 255 'a'), 0⟩]⟩,
        ⟨[⟨1, String.mk (List.replicate 255 'a'), 0⟩], 1, 0⟩) := by
  have hnul : Char.ofNat 0 ∉ (decodeUtf16 paddedName).data := by
    rw [decodeUtf16_paddedName]
    intro hmem
    rcases List.mem_append.mp hmem with h | h
    · exact absurd (List.eq_of_mem_replicate h) (by decide)
    · exact absurd (List.eq_of_mem_replicate h) (by decide)
  rw [pgQuery_insertItem]
  simp only [prepareValue, pgInsert, if_neg hnul, varchar255_paddedName, freshTable]
  rfl

/-- C2 as stated fails on a fresh table at three truthy names whose insert resolves with a
201 response: the boolean `true` comes back as the text "true"; the string of the JSON text
`"a\ud800b"` comes back with U+FFFD in place of the surrogate; a string of 255 letters and
three spaces comes back without the spaces. -/
theorem postItems_name_not_echoed :
    ((postItems (pgQuery (fun _ => "")) (jsonRequest [("name", .bool true)])
        (freshTable 0)).outcome =
      .responded ⟨201, .json (.obj [("id", .num (.finite 1)), ("name", .str (utf16 "true")),
        ("created_at", .date 0)])⟩
      ∧ ¬ EchoesSubmittedName (fun _ => "") (jsonRequest [("name", .bool true)])
          (freshTable 0))
    ∧ ((postItems (pgQuery (fun _ => "")) (jsonRequest [("name", .str loneSurrogateName)])
        (freshTable 0)).outcome =
      .responded ⟨201, .json (.obj [("id", .num (.finite 1)), ("name", .str [97, 0xFFFD, 98]),
        ("created_at", .date 0)])⟩
      ∧ ¬ EchoesSubmittedName (fun _ => "") (jsonRequest [("name", .str loneSurrogateName)])
          (freshTable 0))
    ∧ ((postItems (pgQuery (fun _ => "")) (jsonRequest [("name", .str paddedName)])
        (freshTable 0)).outcome =
      .responded ⟨201, .json (.obj [("id", .num (.finite 1)),
        ("name", .str (List.replicate 255 97)), ("created_at", .date 0)])⟩
      ∧ ¬ EchoesSubmittedName (fun _ => "") (jsonRequest [("name", .str paddedName)])
          (freshTable 0)) := by
  refine ⟨⟨?_, ?_⟩, ⟨?_, ?_⟩, ⟨?_, ?_⟩⟩
  · rw [postItems_of_ok (pgQuery (fun _ => "")) (jsonRequest [("name", .bool true)])
      (freshTable 0) _ (.bool true) _ rfl rfl pgQuery_insert_true]
    rfl
  · intro h
    obtain ⟨it, -, -, -, -, hname⟩ := h (.bool true) _ rfl rfl (by rw [pgQuery_insert_true])
    cases hname
  · rw [postItems_of_ok (pgQuery (fun _ => "")) (jsonRequest [("name", .str loneSurrogateName)])
      (freshTable 0) _ (.str loneSurrogateName) _ rfl rfl pgQuery_insert_loneSurrogateName]
    rfl
  · intro h
    obtain ⟨it, -, -, -, -, hname⟩ := h (.str loneSurrogateName) _ rfl rfl
      (by rw [pgQuery_insert_loneSurrogateName])
    simp only [JSVal.str.injEq] at hname
    have hback := congrArg (fun u => utf16 (decodeUtf16 u)) hname
    simp only [decodeUtf16_utf16] at hback
    rw [hname] at hback
    exact absurd hback (by decide)
  · rw [postItems_of_ok (pgQuery (fun _ => "")) (jsonRequest [("name", .str paddedName)])
      (freshTable 0) _ (.str paddedName) _ rfl rfl pgQuery_insert_paddedName]
    have h97 : utf16 (String.mk (List.replicate 255 'a')) = List.replicate 255 97 :=
      utf16_replicate 255 'a' (by decide)
    simp only [firstRow, Item.toRow, h97]
    rfl
  · intro h
    obtain ⟨it, hout, -, -, -, hname⟩ := h (.str paddedName) _ rfl rfl
      (by rw [pgQuery_insert_paddedName])
    rw [postItems_of_ok (pgQuery (fun _ => "")) (jsonRequest [("name", .str paddedName)])
      (freshTable 0) _ (.str paddedName) _ rfl rfl pgQuery_insert_paddedName] at hout
    simp only [Outcome.responded.injEq, Response.mk.injEq, Body.json.injEq, true_and] at hout
    have hshown := (Item.toRow_shown_eq _ _ hout).1
    simp only [JSVal.str.injEq] at hname
    have hlen := congrArg (fun u => (decodeUtf16 u).length) (hshown.trans hname)
    simp only [decodeUtf16_utf16, decodeUtf16_paddedName] at hlen
    have h1 : (String.mk (List.replicate 255 'a')).length = 255 := by
      show (List.replicate 255 'a').length = 255
      rw [List.length_replicate]
    have h2 : (String.mk (List.replicate 255 'a' ++ List.replicate 3 ' ')).length = 258 := by
      show (List.replicate 255 'a' ++ List.replicate 3 ' ').length = 258
      rw [List.length_append, List.length_replicate, List.length_replicate]
    rw [h1, h2] at hlen
    exact absurd hlen (by decide)

/-- C2, amended. A POST /items with a truthy `name` whose insert resolves is answered with
201 and the JSON of the first row of the result. Over PostgreSQL that row is the item just
stored, with `id` the next value of the sequence and `created_at` the clock reading, and
when the submitted name is a string without a surrogate that stands alone (the JavaScript
string of a text) and of at most 255 characters, the `name` it shows is that string. The body
`{"name":"widget"}` on a table without rows, in any state the service can bring about, is
answered with 201, `id` 1 and `name` "widget". -/
theorem postItems_returns_created_row {σ : Type} (pool : Pool σ) (req : Request) (s : σ)
    (name : JSVal) (result : QueryResult) (hname : req.body.getProp "name" = .ok name)
    (htruthy : name.truthy = true) (hq : (pool ⟨insertItemSql, [name]⟩ s).1 = .ok result) :
    (postItems pool req s).outcome = .responded ⟨201, .json (firstRow result.rows)⟩
    ∧ (∀ (enc : JSVal → String) (r : Request) (t : PgState) (n : JSVal) (res : QueryResult),
        r.body.getProp "name" = .ok n → n.truthy = true →
        (pgQuery enc ⟨insertItemSql, [n]⟩ t).1 = .ok res →
        ∃ it : Item, (postItems (pgQuery enc) r t).outcome = .responded ⟨201, .json it.toRow⟩
          ∧ it.toRow = firstRow res.rows ∧ it.id = t.seq + 1 ∧ it.created_at = t.now
          ∧ (postItems (pgQuery enc) r t).db.rows = t.rows ++ [it])
    ∧ (∀ (enc : JSVal → String) (r : Request) (t : PgState) (nm : String),
        r.body.getProp "name" = .ok (.str (utf16 nm)) → nm.length ≤ 255 →
        EchoesSubmittedName enc r t)
    ∧ (∀ (enc : JSVal → String) (t : PgState), Reachable enc t → t.rows = [] →
        (postItems (pgQuery enc) (jsonRequest [("name", .str (utf16 "widget"))]) t).outcome =
          .responded ⟨201, .json (.obj [("id", .num (.finite 1)),
            ("name", .str (utf16 "widget")), ("created_at", .date (t.now / 1000))])⟩) := by
  have key : ∀ (enc : JSVal → String) (r : Request) (t : PgState) (n : JSVal)
      (res : QueryResult), r.body.getProp "name" = .ok n → n.truthy = true →
      (pgQuery enc ⟨insertItemSql, [n]⟩ t).1 = .ok res →
      ∃ txt stored, prepareValue enc n = some txt ∧ varchar255 txt = some stored
        ∧ res = ⟨[Item.toRow ⟨t.seq + 1, stored, t.now⟩]⟩
        ∧ (postItems (pgQuery enc) r t).outcome =
            .responded ⟨201, .json (Item.toRow ⟨t.seq + 1, stored, t.now⟩)⟩
        ∧ (postItems (pgQuery enc) r t).db.rows = t.rows ++ [⟨t.seq + 1, stored, t.now⟩] := by
    intro enc r t n res hn ht hres
    rcases hp : pgQuery enc ⟨insertItemSql, [n]⟩ t with ⟨x, t1⟩
    rw [hp] at hres
    simp only at hres
    subst hres
    have hins := hp
    rw [pgQuery_insertItem] at hins
    obtain ⟨txt, stored, h1, h2, -, h4, h5⟩ := pgInsert_ok _ t t1 res hins
    refine ⟨txt, stored, h1, h2, h4, ?_, ?_⟩
    · rw [postItems_of_ok _ r t t1 n res hn ht hp, h4]
      rfl
    · rw [postItems_of_ok _ r t t1 n res hn ht hp, h5]
  refine ⟨?_, ?_, ?_, ?_⟩
  · rcases hp : pool ⟨insertItemSql, [name]⟩ s with ⟨x, s1⟩
    rw [hp] at hq
    simp only at hq
    subst hq
    rw [postItems_of_ok pool req s s1 name result hname htruthy hp]
  · intro enc r t n res hn ht hres
    obtain ⟨txt, stored, -, -, h3, h4, h5⟩ := key enc r t n res hn ht hres
    exact ⟨⟨t.seq + 1, stored, t.now⟩, h4, by rw [h3]; rfl, rfl, rfl, h5⟩
  · intro enc r t nm hn hlen n res hn2 ht hres
    rw [hn] at hn2
    simp only [Except.ok.injEq] at hn2
    subst hn2
    obtain ⟨txt, stored, h1, h2, h3, h4, -⟩ := key enc r t (.str (utf16 nm)) res hn ht hres
    simp only [prepareValue, decodeUtf16_utf16, Option.some.injEq] at h1
    subst h1
    rw [varchar255_of_length_le nm hlen] at h2
    simp only [Option.some.injEq] at h2
    subst h2
    exact ⟨⟨t.seq + 1, nm, t.now⟩, h4, by rw [h3]; rfl, rfl, rfl, rfl⟩
  · intro enc t hreach hrows
    obtain ⟨hids, hseq⟩ := hreach.consistent
    have hzero : t.seq = 0 := hseq hrows
    rw [postItems_pg_of_text enc (jsonRequest [("name", .str (utf16 "widget"))]) t "widget"
      rfl (by decide) (by decide) (by decide) (by rw [hzero]; decide) hids]
    simp [Item.toRow, hzero]

/-- C2 at the body `{"name":"gadget"}` on a table that holds one row. -/
theorem postItems_returns_created_row_witness :
    (postItems (pgQuery (fun _ => "")) (jsonRequest [("name", .str (utf16 "gadget"))])
        ⟨[⟨1, "widget", 7⟩], 1, 9⟩).outcome =
      .responded ⟨201, .json (firstRow [Item.toRow ⟨2, "gadget", 9⟩])⟩ :=
  (postItems_returns_created_row (pgQuery (fun _ => ""))
    (jsonRequest [("name", .str (utf16 "gadget"))]) ⟨[⟨1, "widget", 7⟩], 1, 9⟩
    (.str (utf16 "gadget")) ⟨[Item.toRow ⟨2, "gadget", 9⟩]⟩ rfl (by decide)
    (by
      rw [pgQuery_insertItem]
      exact congrArg Prod.fst (pgInsert_of_valid "gadget" ⟨[⟨1, "widget", 7⟩], 1, 9⟩
        (by decide) (by decide) (by decide) (by simp)))).1

/-! ## Database errors -/

/-- C3. On each of the three routes, when the query is rejected the response is status 500
with a fixed text: for any two pools, database states, requests with truthy names and
errors `e₁`, `e₂`, both runs answer with the same constant response, which holds no part of
the error. -/
theorem db_error_response_is_fixed {σ : Type} (toStr : JSVal → String) (pool₁ pool₂ : Pool σ)
    (s₁ s₂ : σ) (e₁ e₂ : JSError) :
    ((pool₁ ⟨selectNowSql, []⟩ s₁).1 = .error e₁ → (pool₂ ⟨selectNowSql, []⟩ s₂).1 = .error e₂ →
        (getRoot toStr pool₁ s₁).outcome = .responded ⟨500, .text "Error connecting to database"⟩
        ∧ (getRoot toStr pool₂ s₂).outcome = (getRoot toStr pool₁ s₁).outcome)
    ∧ ((pool₁ ⟨selectItemsSql, []⟩ s₁).1 = .error e₁ →
        (pool₂ ⟨selectItemsSql, []⟩ s₂).1 = .error e₂ →
        (getItems pool₁ s₁).outcome =
            .responded ⟨500, .text "Error fetching items from database"⟩
        ∧ (getItems pool₂ s₂).outcome = (getItems pool₁ s₁).outcome)
    ∧ (∀ (req₁ req₂ : Request) (n₁ n₂ : JSVal),
        req₁.body.getProp "name" = .ok n₁ → n₁.truthy = true →
        req₂.body.getProp "name" = .ok n₂ → n₂.truthy = true →
        (pool₁ ⟨insertItemSql, [n₁]⟩ s₁).1 = .error e₁ →
        (pool₂ ⟨insertItemSql, [n₂]⟩ s₂).1 = .error e₂ →
        (postItems pool₁ req₁ s₁).outcome = .responded ⟨500, .text "Error adding item to database"⟩
        ∧ (postItems pool₂ req₂ s₂).outcome = (postItems pool₁ req₁ s₁).outcome) := by
  refine ⟨?_, ?_, ?_⟩
  · intro h₁ h₂
    rcases hq₁ : pool₁ ⟨selectNowSql, []⟩ s₁ with ⟨r₁, t₁⟩
    rcases hq₂ : pool₂ ⟨selectNowSql, []⟩ s₂ with ⟨r₂, t₂⟩
    rw [hq₁] at h₁
    rw [hq₂] at h₂
    simp only at h₁ h₂
    subst h₁ h₂
    rw [getRoot_of_error toStr pool₁ s₁ t₁ e₁ hq₁, getRoot_of_error toStr pool₂ s₂ t₂ e₂ hq₂]
    exact ⟨rfl, rfl⟩
  · intro h₁ h₂
    rcases hq₁ : pool₁ ⟨selectItemsSql, []⟩ s₁ with ⟨r₁, t₁⟩
    rcases hq₂ : pool₂ ⟨selectItemsSql, []⟩ s₂ with ⟨r₂, t₂⟩
    rw [hq₁] at h₁
    rw [hq₂] at h₂
    simp only at h₁ h₂
    subst h₁ h₂
    rw [getItems_of_error pool₁ s₁ t₁ e₁ hq₁, getItems_of_error pool₂ s₂ t₂ e₂ hq₂]
    exact ⟨rfl, rfl⟩
  · intro req₁ req₂ n₁ n₂ hn₁ ht₁ hn₂ ht₂ h₁ h₂
    rcases hq₁ : pool₁ ⟨insertItemSql, [n₁]⟩ s₁ with ⟨r₁, t₁⟩
    rcases hq₂ : pool₂ ⟨insertItemSql, [n₂]⟩ s₂ with ⟨r₂, t₂⟩
    rw [hq₁] at h₁
    rw [hq₂] at h₂
    simp only at h₁ h₂
    subst h₁ h₂
    rw [postItems_of_error pool₁ req₁ s₁ t₁ n₁ e₁ hn₁ ht₁ hq₁,
      postItems_of_error pool₂ req₂ s₂ t₂ n₂ e₂ hn₂ ht₂ hq₂]
    exact ⟨rfl, rfl⟩

/-- C3 with the database unreachable, once refusing connections and once timing out. -/
theorem db_error_response_is_fixed_witness :
    (getRoot (fun _ => "") (downPool ⟨"connect ECONNREFUSED 10.0.0.5:5432"⟩) ()).outcome =
        (getRoot (fun _ => "") (downPool ⟨"Connection terminated due to connection timeout"⟩)
          ()).outcome
    ∧ (getItems (downPool ⟨"Connection terminated due to connection timeout"⟩) ()).outcome =
        (getItems (downPool ⟨"connect ECONNREFUSED 10.0.0.5:5432"⟩) ()).outcome
    ∧ (postItems (downPool ⟨"Connection terminated due to connection timeout"⟩)
          (jsonRequest [("name", .str (utf16 "gadget"))]) ()).outcome =
        (postItems (downPool ⟨"connect ECONNREFUSED 10.0.0.5:5432"⟩)
          (jsonRequest [("name", .str (utf16 "widget"))]) ()).outcome :=
  have h := db_error_response_is_fixed (fun _ => "")
    (downPool ⟨"connect ECONNREFUSED 10.0.0.5:5432"⟩)
    (downPool ⟨"Connection terminated due to connection timeout"⟩) () ()
    ⟨"connect ECONNREFUSED 10.0.0.5:5432"⟩ ⟨"Connection terminated due to connection timeout"⟩
  ⟨(h.1 rfl rfl).2.symm, (h.2.1 rfl rfl).2,
    (h.2.2 (jsonRequest [("name", .str (utf16 "widget"))]) (jsonRequest [("name", .str (utf16 "gadget"))])
      (.str (utf16 "widget")) (.str (utf16 "gadget")) rfl (by decide) rfl
      (by decide) rfl rfl).2⟩

/-! ## Listing -/

/-- C6. When the list query resolves, GET /items answers with status 200 and the JSON array
of exactly the rows of the result, in their order; on a table without rows the answer is 200
with the empty array. -/
theorem getItems_returns_rows {σ : Type} (pool : Pool σ) (s : σ) (result : QueryResult)
    (h : (pool ⟨selectItemsSql, []⟩ s).1 = .ok result) :
    (getItems pool s).outcome = .responded ⟨200, .json (.arr result.rows)⟩
    ∧ (∀ (enc : JSVal → String) (seq now : Nat),
        (getItems (pgQuery enc) ⟨[], seq, now⟩).outcome = .responded ⟨200, .json (.arr [])⟩) := by
  constructor
  · rcases hq : pool ⟨selectItemsSql, []⟩ s with ⟨r, t⟩
    rw [hq] at h
    simp only at h
    subst h
    rw [getItems_of_ok pool s t result hq]
  · intro enc seq now
    rw [getItems_of_ok (pgQuery enc) ⟨[], seq, now⟩ ⟨[], seq, now⟩ ⟨[]⟩ (by
      simp [pgQuery_selectItems, orderByCreatedAtDesc])]

/-- C6 on a table holding one row. -/
theorem getItems_returns_rows_witness :
    (getItems (pgQuery (fun _ => "")) ⟨[⟨1, "widget", 7⟩], 1, 9⟩).outcome =
      .responded ⟨200, .json (.arr [Item.toRow ⟨1, "widget", 7⟩])⟩ :=
  (getItems_returns_rows (pgQuery (fun _ => "")) ⟨[⟨1, "widget", 7⟩], 1, 9⟩
    ⟨[Item.toRow ⟨1, "widget", 7⟩]⟩ (by simp [pgQuery_selectItems, orderByCreatedAtDesc])).1

/-! ## Order of the list -/

/-- C4 as stated fails when the three inserts read the same clock value: the items "A", "B",
"C", created in that order on a fresh table while the clock reads 5, are all answered 201
and then listed as A, B, C. -/
theorem getItems_equal_timestamps_not_reversed :
    (getItems (pgQuery (fun _ => ""))
        ((afterPost (fun _ => "") (jsonRequest [("name", .str (utf16 "C"))]) 5
          (afterPost (fun _ => "") (jsonRequest [("name", .str (utf16 "B"))]) 5
            (afterPost (fun _ => "") (jsonRequest [("name", .str (utf16 "A"))]) 5
              (freshTable 0)))).atTime 6)).outcome =
      .responded ⟨200, .json (.arr [Item.toRow ⟨1, "A", 5⟩, Item.toRow ⟨2, "B", 5⟩,
        Item.toRow ⟨3, "C", 5⟩])⟩
    ∧ ¬ ListsNewestFirst (fun _ => "") (freshTable 0) (jsonRequest [("name", .str (utf16 "A"))])
        (jsonRequest [("name", .str (utf16 "B"))]) (jsonRequest [("name", .str (utf16 "C"))]) 5 5 5 6 := by
  have h1 : postItems (pgQuery (fun _ => "")) (jsonRequest [("name", .str (utf16 "A"))])
      ((freshTable 0).atTime 5) =
      { outcome := .responded ⟨201, .json (Item.toRow ⟨1, "A", 5⟩)⟩,
        queries := [⟨insertItemSql, [.str (utf16 "A")]⟩], stderr := [],
        db := ⟨[⟨1, "A", 5⟩], 1, 5⟩ } :=
    postItems_pg_of_text _ _ _ "A" rfl (by decide) (by decide) (by decide) (by decide)
      (by simp [freshTable, PgState.atTime])
  have h2 : postItems (pgQuery (fun _ => "")) (jsonRequest [("name", .str (utf16 "B"))])
      (PgState.atTime ⟨[⟨1, "A", 5⟩], 1, 5⟩ 5) =
      { outcome := .responded ⟨201, .json (Item.toRow ⟨2, "B", 5⟩)⟩,
        queries := [⟨insertItemSql, [.str (utf16 "B")]⟩], stderr := [],
        db := ⟨[⟨1, "A", 5⟩, ⟨2, "B", 5⟩], 2, 5⟩ } :=
    postItems_pg_of_text _ _ _ "B" rfl (by decide) (by decide) (by decide) (by decide)
      (by simp [PgState.atTime])
  have h3 : postItems (pgQuery (fun _ => "")) (jsonRequest [("name", .str (utf16 "C"))])
      (PgState.atTime ⟨[⟨1, "A", 5⟩, ⟨2, "B", 5⟩], 2, 5⟩ 5) =
      { outcome := .responded ⟨201, .json (Item.toRow ⟨3, "C", 5⟩)⟩,
        queries := [⟨insertItemSql, [.str (utf16 "C")]⟩], stderr := [],
        db := ⟨[⟨1, "A", 5⟩, ⟨2, "B", 5⟩, ⟨3, "C", 5⟩], 3, 5⟩ } :=
    postItems_pg_of_text _ _ _ "C" rfl (by decide) (by decide) (by decide) (by decide)
      (by simp [PgState.atTime])
  have hlist : (getItems (pgQuery (fun _ => ""))
        ((afterPost (fun _ => "") (jsonRequest [("name", .str (utf16 "C"))]) 5
          (afterPost (fun _ => "") (jsonRequest [("name", .str (utf16 "B"))]) 5
            (afterPost (fun _ => "") (jsonRequest [("name", .str (utf16 "A"))]) 5
              (freshTable 0)))).atTime 6)).outcome =
      .responded ⟨200, .json (.arr [Item.toRow ⟨1, "A", 5⟩, Item.toRow ⟨2, "B", 5⟩,
        Item.toRow ⟨3, "C", 5⟩])⟩ := by
    simp only [afterPost, h1, h2, h3, getItems_pg]
    simp [PgState.atTime, orderByCreatedAtDesc, List.insertionSort, List.orderedInsert]
  refine ⟨hlist, ?_⟩
  intro h
  have h' := h (Item.toRow ⟨1, "A", 5⟩) (Item.toRow ⟨2, "B", 5⟩) (Item.toRow ⟨3, "C", 5⟩)
    (by rw [h1]) (by simp only [afterPost, h1, h2]) (by simp only [afterPost, h1, h2, h3])
  rw [hlist] at h'
  simp [Item.toRow] at h'

/-- C4, amended. Three POST /items requests served in the order A, B, C on a table without
rows, each answered 201, at strictly increasing readings of the database clock, are listed
by a later GET /items as exactly C, B, A. -/
theorem getItems_lists_newest_first (enc : JSVal → String) (s0 : PgState)
    (ra rb rc : Request) (ta tb tc tl : Nat) (hempty : s0.rows = []) (hab : ta < tb)
    (hbc : tb < tc) : ListsNewestFirst enc s0 ra rb rc ta tb tc tl := by
  intro a b c h1 h2 h3
  obtain ⟨-, -, n1, -, -, -, -, -, ha, hd1⟩ := postItems_pg_created enc ra _ _ h1
  have e1 : afterPost enc ra ta s0 = ⟨[⟨s0.seq + 1, n1, ta⟩], s0.seq + 1, ta⟩ := by
    rw [afterPost, hd1]
    simp [PgState.atTime, hempty]
  rw [e1] at h2 h3 ⊢
  obtain ⟨-, -, n2, -, -, -, -, -, hb, hd2⟩ := postItems_pg_created enc rb _ _ h2
  have e2 : afterPost enc rb tb ⟨[⟨s0.seq + 1, n1, ta⟩], s0.seq + 1, ta⟩ =
      ⟨[⟨s0.seq + 1, n1, ta⟩, ⟨s0.seq + 1 + 1, n2, tb⟩], s0.seq + 1 + 1, tb⟩ := by
    rw [afterPost, hd2]
    simp [PgState.atTime]
  rw [e2] at h3 ⊢
  obtain ⟨-, -, n3, -, -, -, -, -, hc, hd3⟩ := postItems_pg_created enc rc _ _ h3
  have e3 : afterPost enc rc tc
      ⟨[⟨s0.seq + 1, n1, ta⟩, ⟨s0.seq + 1 + 1, n2, tb⟩], s0.seq + 1 + 1, tb⟩ =
      ⟨[⟨s0.seq + 1, n1, ta⟩, ⟨s0.seq + 1 + 1, n2, tb⟩, ⟨s0.seq + 1 + 1 + 1, n3, tc⟩],
        s0.seq + 1 + 1 + 1, tc⟩ := by
    rw [afterPost, hd3]
    simp [PgState.atTime]
  rw [e3, getItems_pg]
  simp only [Body.json.injEq] at ha hb hc
  subst ha hb hc
  have hba : ¬ tb ≤ ta := by omega
  have hcb : ¬ tc ≤ tb := by omega
  have hca : ¬ tc ≤ ta := by omega
  simp [PgState.atTime, orderByCreatedAtDesc, List.insertionSort, List.orderedInsert, hba, hcb,
    hca]

/-- C4 at the names "A", "B", "C" on a fresh table, at the clock readings 1, 2, 3. -/
theorem getItems_lists_newest_first_witness :
    (getItems (pgQuery (fun _ => ""))
        ((afterPost (fun _ => "") (jsonRequest [("name", .str (utf16 "C"))]) 3
          (afterPost (fun _ => "") (jsonRequest [("name", .str (utf16 "B"))]) 2
            (afterPost (fun _ => "") (jsonRequest [("name", .str (utf16 "A"))]) 1
              (freshTable 0)))).atTime 4)).outcome =
      .responded ⟨200, .json (.arr [Item.toRow ⟨3, "C", 3⟩, Item.toRow ⟨2, "B", 2⟩,
        Item.toRow ⟨1, "A", 1⟩])⟩ := by
  have h1 : postItems (pgQuery (fun _ => "")) (jsonRequest [("name", .str (utf16 "A"))])
      ((freshTable 0).atTime 1) =
      { outcome := .responded ⟨201, .json (Item.toRow ⟨1, "A", 1⟩)⟩,
        queries := [⟨insertItemSql, [.str (utf16 "A")]⟩], stderr := [],
        db := ⟨[⟨1, "A", 1⟩], 1, 1⟩ } :=
    postItems_pg_of_text _ _ _ "A" rfl (by decide) (by decide) (by decide) (by decide)
      (by simp [freshTable, PgState.atTime])
  have h2 : postItems (pgQuery (fun _ => "")) (jsonRequest [("name", .str (utf16 "B"))])
      (PgState.atTime ⟨[⟨1, "A", 1⟩], 1, 1⟩ 2) =
      { outcome := .responded ⟨201, .json (Item.toRow ⟨2, "B", 2⟩)⟩,
        queries := [⟨insertItemSql, [.str (utf16 "B")]⟩], stderr := [],
        db := ⟨[⟨1, "A", 1⟩, ⟨2, "B", 2⟩], 2, 2⟩ } :=
    postItems_pg_of_text _ _ _ "B" rfl (by decide) (by decide) (by decide) (by decide)
      (by simp [PgState.atTime])
  have h3 : postItems (pgQuery (fun _ => "")) (jsonRequest [("name", .str (utf16 "C"))])
      (PgState.atTime ⟨[⟨1, "A", 1⟩, ⟨2, "B", 2⟩], 2, 2⟩ 3) =
      { outcome := .responded ⟨201, .json (Item.toRow ⟨3, "C", 3⟩)⟩,
        queries := [⟨insertItemSql, [.str (utf16 "C")]⟩], stderr := [],
        db := ⟨[⟨1, "A", 1⟩, ⟨2, "B", 2⟩, ⟨3, "C", 3⟩], 3, 3⟩ } :=
    postItems_pg_of_text _ _ _ "C" rfl (by decide) (by decide) (by decide) (by decide)
      (by simp [PgState.atTime])
  exact getItems_lists_newest_first (fun _ => "") (freshTable 0)
    (jsonRequest [("name", .str (utf16 "A"))]) (jsonRequest [("name", .str (utf16 "B"))])
    (jsonRequest [("name", .str (utf16 "C"))]) 1 2 3 4 rfl (by decide) (by decide)
    (Item.toRow ⟨1, "A", 1⟩) (Item.toRow ⟨2, "B", 2⟩) (Item.toRow ⟨3, "C", 3⟩)
    (by rw [h1]) (by simp only [afterPost, h1, h2]) (by simp only [afterPost, h1, h2, h3])

/-! ## Create, then list -/

/-- On a table without rows, when the POST leaves exactly the row `stored`, the statement of
C5 says that `stored` shows the submitted name and a `created_at` not earlier than the request
time. -/
theorem CreateThenListAddsOne.on_empty (enc : JSVal → String) (req : Request)
    (name : JSString) (s : PgState) (tl requestTime seq now : Nat) (stored : Item)
    (hrows : s.rows = [])
    (hdb : (postItems (pgQuery enc) req s).db = ⟨[stored], seq, now⟩)
    (h : CreateThenListAddsOne enc req name s tl requestTime) :
    utf16 stored.name = name ∧ requestTime ≤ 1000 * (stored.created_at / 1000) := by
  obtain ⟨old, new, it, hold, hnew, hperm, -, hname, -, htime⟩ := h
  rw [getItems_pg, hrows] at hold
  rw [hdb, getItems_pg] at hnew
  simp only [Outcome.responded.injEq, Response.mk.injEq, Body.json.injEq, JSVal.arr.injEq,
    true_and] at hold hnew
  subst hold hnew
  have heq : stored.toRow = it.toRow := by
    simpa [PgState.atTime, orderByCreatedAtDesc] using hperm
  obtain ⟨h1, h2⟩ := Item.toRow_shown_eq _ _ heq
  rw [h1, h2]
  exact ⟨hname, htime⟩

/-- C5 as stated fails on a table without rows at three non-empty string names. A name of 256
letters is refused by the insert: the POST is answered 500 and the list stays empty. The
name of the JSON text `"a\ud800b"` is stored and listed with U+FFFD in place of the
surrogate. The name "gadget", submitted when the database clock reads 1200 microseconds and
inserted when it reads 1500, is listed with a `created_at` of 1 millisecond, which is
earlier than the request. -/
theorem postItems_then_getItems_not_as_stated :
    (longName ≠ []
      ∧ (postItems (pgQuery (fun _ => "")) (jsonRequest [("name", .str longName)])
          (freshTable 0)).outcome = .responded ⟨500, .text "Error adding item to database"⟩
      ∧ (getItems (pgQuery (fun _ => ""))
          ((postItems (pgQuery (fun _ => "")) (jsonRequest [("name", .str longName)])
            (freshTable 0)).db.atTime 1)).outcome = .responded ⟨200, .json (.arr [])⟩
      ∧ ¬ CreateThenListAddsOne (fun _ => "") (jsonRequest [("name", .str longName)]) longName
          (freshTable 0) 1 0)
    ∧ ((getItems (pgQuery (fun _ => ""))
          ((postItems (pgQuery (fun _ => "")) (jsonRequest [("name", .str loneSurrogateName)])
            (freshTable 0)).db.atTime 1)).outcome =
        .responded ⟨200, .json (.arr [.obj [("id", .num (.finite 1)),
          ("name", .str [97, 0xFFFD, 98]), ("created_at", .date 0)]])⟩
      ∧ ¬ CreateThenListAddsOne (fun _ => "") (jsonRequest [("name", .str loneSurrogateName)])
          loneSurrogateName (freshTable 0) 1 0)
    ∧ ((getItems (pgQuery (fun _ => ""))
          ((postItems (pgQuery (fun _ => "")) (jsonRequest [("name", .str (utf16 "gadget"))])
            (freshTable 1500)).db.atTime 2000)).outcome =
        .responded ⟨200, .json (.arr [.obj [("id", .num (.finite 1)),
          ("name", .str (utf16 "gadget")), ("created_at", .date 1)]])⟩
      ∧ 1200 ≤ (freshTable 1500).now
      ∧ ¬ CreateThenListAddsOne (fun _ => "") (jsonRequest [("name", .str (utf16 "gadget"))])
          (utf16 "gadget") (freshTable 1500) 2000 1200) := by
  have hne : longName ≠ [] := by
    intro h
    have hlen := congrArg List.length h
    rw [longName, List.length_replicate] at hlen
    exact absurd hlen (by decide)
  have hv : varchar255 (decodeUtf16 longName) = none := by
    rw [decodeUtf16_longName]
    unfold varchar255
    have hlen : (String.mk (List.replicate 256 'a')).length = 256 := by
      show (List.replicate 256 'a').length = 256
      rw [List.length_replicate]
    rw [if_neg (by rw [hlen]; decide)]
    show (if (List.drop 255 (List.replicate 256 'a')).all (fun c => c == ' ') = true then
        some (String.mk (List.take 255 (List.replicate 256 'a'))) else none) = none
    rw [List.drop_replicate, if_neg (by decide)]
  have hq : pgQuery (fun _ => "") ⟨insertItemSql, [.str longName]⟩ (freshTable 0) =
      (.error ⟨"value too long for type character varying(255)"⟩, ⟨[], 0, 0⟩) := by
    rw [pgQuery_insertItem]
    have hnul : Char.ofNat 0 ∉ (decodeUtf16 longName).data := by
      rw [decodeUtf16_longName]
      intro hmem
      exact absurd (List.eq_of_mem_replicate hmem) (by decide)
    simp only [pgInsert, prepareValue, if_neg hnul, hv, freshTable]
  have hpost := postItems_of_error (pgQuery (fun _ => ""))
    (jsonRequest [("name", .str longName)]) (freshTable 0) _ (.str longName) _ rfl
    (by simp [JSVal.truthy, hne]) hq
  have hlist : (getItems (pgQuery (fun _ => ""))
        ((postItems (pgQuery (fun _ => "")) (jsonRequest [("name", .str longName)])
          (freshTable 0)).db.atTime 1)).outcome = .responded ⟨200, .json (.arr [])⟩ := by
    rw [hpost, getItems_pg]
    simp [PgState.atTime, orderByCreatedAtDesc]
  have hlone := postItems_pg_of_valid (fun _ => "")
    (jsonRequest [("name", .str loneSurrogateName)]) (freshTable 0) loneSurrogateName rfl
    (by decide) (by decide) (by decide) (by decide) (by simp [freshTable])
  have hgadget := postItems_pg_of_text (fun _ => "")
    (jsonRequest [("name", .str (utf16 "gadget"))]) (freshTable 1500) "gadget" rfl
    (by decide) (by decide) (by decide) (by decide) (by simp [freshTable])
  refine ⟨⟨hne, by rw [hpost], hlist, ?_⟩, ⟨?_, ?_⟩, ⟨?_, by decide, ?_⟩⟩
  · rintro ⟨old, new, it, -, hnew, hperm, -⟩
    rw [hlist] at hnew
    simp only [Outcome.responded.injEq, Response.mk.injEq, Body.json.injEq, JSVal.arr.injEq,
      true_and] at hnew
    subst hnew
    simp at hperm
  · rw [hlone, getItems_pg]
    simp only [freshTable, PgState.atTime, List.nil_append, orderByCreatedAtDesc,
      List.insertionSort, List.orderedInsert, List.map_cons, List.map_nil, Item.toRow]
    rfl
  · intro h
    have hshown : utf16 (decodeUtf16 loneSurrogateName) = loneSurrogateName :=
      (CreateThenListAddsOne.on_empty _ _ _ _ _ _ 1 0
        ⟨1, decodeUtf16 loneSurrogateName, 0⟩ rfl (by rw [hlone]; rfl) h).1
    exact absurd hshown (by decide)
  · rw [hgadget, getItems_pg]
    simp only [freshTable, PgState.atTime, List.nil_append, orderByCreatedAtDesc,
      List.insertionSort, List.orderedInsert, List.map_cons, List.map_nil, Item.toRow]
    rfl
  · intro h
    have htime : 1200 ≤ 1000 * (1500 / 1000) :=
      (CreateThenListAddsOne.on_empty _ _ _ _ _ _ 1 1500
        ⟨1, "gadget", 1500⟩ rfl (by rw [hgadget]; rfl) h).2
    exact absurd htime (by decide)

/-- C5, amended. For every string `name` without a surrogate that stands alone (the
JavaScript string of a text) and of at most 255 characters, and every table state, a POST
/items with that name that is answered 201 (which a POST with an empty name never is),
followed by GET /items, yields the earlier list plus exactly one item not listed before; that
item shows the submitted name, has an `id` different from the `id` of every stored row, and
shows a `created_at` not earlier than the request time cut to whole milliseconds, the request
arriving no later on the database clock than the insert runs. -/
theorem postItems_then_getItems_adds_one (enc : JSVal → String) (req : Request) (nm : String)
    (s : PgState) (tl requestTime : Nat)
    (hname : req.body.getProp "name" = .ok (.str (utf16 nm))) (hlen : nm.length ≤ 255)
    (hok : ∃ b, (postItems (pgQuery enc) req s).outcome = .responded ⟨201, b⟩)
    (htime : requestTime ≤ s.now) :
    CreateThenListAddsOne enc req (utf16 nm) s tl (1000 * (requestTime / 1000)) := by
  obtain ⟨b, hb⟩ := hok
  obtain ⟨n, txt, stored, hn, -, hp, hv, hfree, -, hdb⟩ := postItems_pg_created enc req s b hb
  rw [hname] at hn
  simp only [Except.ok.injEq] at hn
  subst hn
  simp only [prepareValue, decodeUtf16_utf16, Option.some.injEq] at hp
  subst hp
  rw [varchar255_of_length_le nm hlen] at hv
  simp only [Option.some.injEq] at hv
  subst hv
  refine ⟨(orderByCreatedAtDesc s.rows).map Item.toRow,
    (orderByCreatedAtDesc (s.rows ++ [⟨s.seq + 1, nm, s.now⟩])).map Item.toRow,
    ⟨s.seq + 1, nm, s.now⟩, ?_, ?_, ?_, ?_, rfl, hfree,
    Nat.mul_le_mul_left _ (Nat.div_le_div_right htime)⟩
  · rw [getItems_pg]
  · rw [hdb, getItems_pg]
    rfl
  · have h1 : (orderByCreatedAtDesc (s.rows ++ [⟨s.seq + 1, nm, s.now⟩])).Perm
        (⟨s.seq + 1, nm, s.now⟩ :: orderByCreatedAtDesc s.rows) := by
      unfold orderByCreatedAtDesc
      refine (List.perm_insertionSort _ _).trans ?_
      refine List.perm_append_comm.trans ?_
      exact List.Perm.cons _ (List.perm_insertionSort _ _).symm
    simpa using h1.map Item.toRow
  · intro hmem
    rw [List.mem_map] at hmem
    obtain ⟨r, hr, heq⟩ := hmem
    have hr' : r ∈ s.rows := by
      unfold orderByCreatedAtDesc at hr
      exact (List.mem_insertionSort _).mp hr
    exact hfree r hr' (Item.toRow_id_eq _ _ heq)

/-- C5 at the name "gadget" on a table that holds one row: the request arrives when the clock
reads 8500 microseconds, the insert runs when it reads 9000. -/
theorem postItems_then_getItems_adds_one_witness :
    CreateThenListAddsOne (fun _ => "") (jsonRequest [("name", .str (utf16 "gadget"))])
      (utf16 "gadget") ⟨[⟨1, "widget", 7000⟩], 1, 9000⟩ 12000 (1000 * (8500 / 1000)) :=
  postItems_then_getItems_adds_one (fun _ => "")
    (jsonRequest [("name", .str (utf16 "gadget"))]) "gadget" ⟨[⟨1, "widget", 7000⟩], 1, 9000⟩
    12000 8500 rfl (by decide)
    ⟨_, by
      rw [postItems_pg_of_text (fun _ => "") (jsonRequest [("name", .str (utf16 "gadget"))])
        ⟨[⟨1, "widget", 7000⟩], 1, 9000⟩ "gadget" rfl (by decide) (by decide) (by decide)
        (by decide) (by simp)]⟩
    (by decide)

/-! ## Startup -/

/-- C7. The bootstrap ends the process, with status 1, exactly when `pool.connect()` is
rejected. When the connection is acquired the process does not exit, whatever becomes of the
CREATE TABLE statement; when that statement fails the error message is written to stderr. -/
theorem bootstrap_exits_iff_connect_fails (connected : Except JSError Unit)
    (created : Except JSError QueryResult) :
    (exitCode (bootstrap connected created) = some 1 ↔ ∃ err, connected = .error err)
    ∧ (exitCode (bootstrap connected created) = none ↔ ∃ u, connected = .ok u)
    ∧ (∀ err : JSError,
        bootstrap (.ok ()) (.error err) =
          [.stdout "Connected to PostgreSQL database!", .query ⟨createTableSql, []⟩, .release,
            .stderr ("Error creating table: " ++ err.message)]
        ∧ exitCode (bootstrap (.ok ()) (.error err)) = none) := by
  refine ⟨?_, ?_, fun err => ⟨rfl, rfl⟩⟩
  · cases connected with
    | error e => simp [bootstrap, exitCode]
    | ok u => cases created <;> simp [bootstrap, exitCode]
  · cases connected with
    | error e => simp [bootstrap, exitCode]
    | ok u => cases created <;> simp [bootstrap, exitCode]

/-- C8. In every run of the bootstrap in which the connection is acquired, `client.release()`
is called exactly once, after the CREATE TABLE statement: as the third effect of the run both
when the statement succeeds and when it fails. -/
theorem bootstrap_releases_once (u : Unit) (created : Except JSError QueryResult) :
    releaseCount (bootstrap (.ok u) created) = 1
    ∧ (∀ result : QueryResult,
        bootstrap (.ok u) (.ok result) =
          [.stdout "Connected to PostgreSQL database!", .query ⟨createTableSql, []⟩, .release,
            .stdout "Table \"test_items\" checked/created."])
    ∧ (∀ err : JSError,
        bootstrap (.ok u) (.error err) =
          [.stdout "Connected to PostgreSQL database!", .query ⟨createTableSql, []⟩, .release,
            .stderr ("Error creating table: " ++ err.message)]) := by
  refine ⟨?_, fun _ => rfl, fun _ => rfl⟩
  cases created <;> rfl

/-! ## Queries sent -/

/-- C9. A POST /items whose `name` is a non-empty string (so also "0", a string of blanks, or
a string with a surrogate that stands alone) is not answered with 400: the handler sends exactly one query, the insert statement with the
submitted string, unchanged, as its only bound value, and answers 201 or 500. -/
theorem postItems_accepts_nonempty_string {σ : Type} (pool : Pool σ) (req : Request) (s : σ)
    (name : JSString) (hname : req.body.getProp "name" = .ok (.str name)) (hne : name ≠ []) :
    (postItems pool req s).queries = [⟨insertItemSql, [.str name]⟩]
    ∧ ∃ r, (postItems pool req s).outcome = .responded r ∧ r.status ≠ 400
        ∧ (r.status = 201 ∨ r.status = 500) := by
  have htruthy : (JSVal.str name).truthy = true := by simp [JSVal.truthy, hne]
  rcases hq : pool ⟨insertItemSql, [.str name]⟩ s with ⟨r, t⟩
  cases r with
  | ok result =>
      rw [postItems_of_ok pool req s t (.str name) result hname htruthy hq]
      exact ⟨rfl, ⟨201, .json (firstRow result.rows)⟩, rfl, by simp, Or.inl rfl⟩
  | error err =>
      rw [postItems_of_error pool req s t (.str name) err hname htruthy hq]
      exact ⟨rfl, ⟨500, .text "Error adding item to database"⟩, rfl, by simp, Or.inr rfl⟩

/-- C9 at the name "0" on a fresh table. -/
theorem postItems_accepts_nonempty_string_witness :
    (postItems (pgQuery (fun _ => "")) (jsonRequest [("name", .str (utf16 "0"))])
        (freshTable 0)).queries = [⟨insertItemSql, [.str (utf16 "0")]⟩]
    ∧ ∃ r, (postItems (pgQuery (fun _ => "")) (jsonRequest [("name", .str (utf16 "0"))])
          (freshTable 0)).outcome = .responded r ∧ r.status ≠ 400
        ∧ (r.status = 201 ∨ r.status = 500) :=
  postItems_accepts_nonempty_string (pgQuery (fun _ => ""))
    (jsonRequest [("name", .str (utf16 "0"))]) (freshTable 0) (utf16 "0") rfl (by decide)

/-- C10. The statement text of every query a handler sends is a constant of the program:
GET / and GET /items send one query with a fixed text and no bound value, every query of
POST /items has the text `INSERT INTO test_items (name) VALUES ($1) RETURNING *`, and for two
requests with truthy names `n₁`, `n₂` the two queries differ only in the bound value, which
is the name. -/
theorem query_text_is_constant {σ : Type} (toStr : JSVal → String) (pool₁ pool₂ : Pool σ)
    (s₁ s₂ : σ) (req₁ req₂ : Request) (n₁ n₂ : JSVal)
    (hn₁ : req₁.body.getProp "name" = .ok n₁) (ht₁ : n₁.truthy = true)
    (hn₂ : req₂.body.getProp "name" = .ok n₂) (ht₂ : n₂.truthy = true) :
    (getRoot toStr pool₁ s₁).queries = [⟨selectNowSql, []⟩]
    ∧ (getItems pool₁ s₁).queries = [⟨selectItemsSql, []⟩]
    ∧ (∀ (req : Request) (q : Query), q ∈ (postItems pool₁ req s₁).queries →
        q.text = "INSERT INTO test_items (name) VALUES ($1) RETURNING *")
    ∧ (postItems pool₁ req₁ s₁).queries = [⟨insertItemSql, [n₁]⟩]
    ∧ (postItems pool₂ req₂ s₂).queries = [⟨insertItemSql, [n₂]⟩]
    ∧ (postItems pool₁ req₁ s₁).queries.map Query.text =
        (postItems pool₂ req₂ s₂).queries.map Query.text := by
  have hp₁ : (postItems pool₁ req₁ s₁).queries = [⟨insertItemSql, [n₁]⟩] := by
    rcases hq : pool₁ ⟨insertItemSql, [n₁]⟩ s₁ with ⟨r, t⟩
    cases r with
    | ok result => rw [postItems_of_ok pool₁ req₁ s₁ t n₁ result hn₁ ht₁ hq]
    | error err => rw [postItems_of_error pool₁ req₁ s₁ t n₁ err hn₁ ht₁ hq]
  have hp₂ : (postItems pool₂ req₂ s₂).queries = [⟨insertItemSql, [n₂]⟩] := by
    rcases hq : pool₂ ⟨insertItemSql, [n₂]⟩ s₂ with ⟨r, t⟩
    cases r with
    | ok result => rw [postItems_of_ok pool₂ req₂ s₂ t n₂ result hn₂ ht₂ hq]
    | error err => rw [postItems_of_error pool₂ req₂ s₂ t n₂ err hn₂ ht₂ hq]
  refine ⟨?_, ?_, ?_, hp₁, hp₂, by rw [hp₁, hp₂]; rfl⟩
  · unfold getRoot
    simp only
    split
    · split <;> rfl
    · rfl
  · unfold getItems
    simp only
    split <;> rfl
  · intro req q hq
    unfold postItems at hq
    split at hq
    · simp at hq
    · split at hq
      · simp at hq
      · simp only at hq
        split at hq <;> simp at hq <;> subst hq <;> rfl

/-- C10 at the names "widget" and "x'); DROP TABLE test_items; --". -/
theorem query_text_is_constant_witness :
    (postItems (pgQuery (fun _ => "")) (jsonRequest [("name", .str (utf16 "widget"))])
        (freshTable 0)).queries.map Query.text =
      (postItems (pgQuery (fun _ => ""))
        (jsonRequest [("name", .str (utf16 "x\x27); DROP TABLE test_items; --"))])
        (freshTable 5)).queries.map Query.text :=
  (query_text_is_constant (fun _ => "") (pgQuery (fun _ => "")) (pgQuery (fun _ => ""))
    (freshTable 0) (freshTable 5) (jsonRequest [("name", .str (utf16 "widget"))])
    (jsonRequest [("name", .str (utf16 "x\x27); DROP TABLE test_items; --"))])
    (.str (utf16 "widget")) (.str (utf16 "x\x27); DROP TABLE test_items; --")) rfl (by decide)
    rfl (by decide)).2.2.2.2.2

end ItemService
